import Mathlib

/-!
Verification of the `no-deep-relative-imports` Babel plugin
(src/src/rules/NoDeepRelativeImports.ts, types in src/unnamed/part_000).

The plugin is purified: instead of invoking the injected `report` callback,
each visitor returns the list of `(node, message)` pairs that the source
would pass to `report`.  An empty list means `report` is never invoked; a
singleton means it is invoked exactly once with that node and message.
-/

/-- Babel expression shapes the rule inspects.  `importOp` is the dynamic
`Import` callee node (recognised by `t.isImport`); `otherExpr` stands for
every expression shape the rule never matches. -/
inductive Expr where
  | ident (name : String)
  | member (obj : Expr) (prop : Expr)
  | strLit (value : String)
  | importOp
  | otherExpr
deriving DecidableEq

/-- `ImportDeclaration`: `source` is the `value` of its `StringLiteral`
source node (always a string in Babel, so the source's
`typeof sourceValue === 'string'` guard is always true). -/
structure ImportDeclaration where
  source : String
deriving DecidableEq

/-- `CallExpression`: a callee and the argument list. -/
structure CallExpression where
  callee : Expr
  arguments : List Expr
deriving DecidableEq

/-- `ExportNamedDeclaration`: the `source` field is nullable
(`export { x } from 'm'` has one, `export { x }` has none). -/
structure ExportNamedDeclaration where
  source : Option String
deriving DecidableEq

/-- `ExportAllDeclaration`: `export * from 'm'` always carries a source. -/
structure ExportAllDeclaration where
  source : String
deriving DecidableEq

/-- The node handle passed to `report` (first argument of the callback). -/
inductive ReportedNode where
  | importDecl (d : ImportDeclaration)
  | callExpr (c : CallExpression)
  | exportNamed (d : ExportNamedDeclaration)
  | exportAll (d : ExportAllDeclaration)
deriving DecidableEq

/-- `sourceValue.startsWith('.')` (line 20): the first character is `'.'`. -/
def startsWithDot (s : String) : Bool :=
  match s.data with
  | '.' :: _ => true
  | _ => false

/-- Greedy left-to-right count of non-overlapping occurrences of the
pattern `../`, the translation of
`(sourceValue.match(/\.\.\//g) || []).length` (line 22): a JS global regex
match scans left to right and resumes after each match. -/
def countDotDotSlash : List Char → Nat
  | '.' :: '.' :: '/' :: rest => countDotDotSlash rest + 1
  | _ :: rest => countDotDotSlash rest
  | [] => 0

/-- `depth` of a specifier (line 22). -/
def getDepth (s : String) : Nat :=
  countDotDotSlash s.data

/-- The message template of line 27:
`` `导入/导出路径 "${sourceValue}" 不能超过最大层级（${maxDepth}：层）` ``. -/
def violationMessage (sourceValue : String) (maxDepth : Nat) : String :=
  "导入/导出路径 \"" ++ sourceValue ++ "\" 不能超过最大层级（"
    ++ Nat.repr maxDepth ++ "：层）"

/-- `checkRelativePath` (lines 13-31), purified: returns the list of
`(node, message)` pairs passed to `report` (empty or a singleton). -/
def checkRelativePath (sourceValue : String) (node : ReportedNode)
    (maxDepth : Nat) : List (ReportedNode × String) :=
  if startsWithDot sourceValue then
    if getDepth sourceValue > maxDepth then
      [(node, violationMessage sourceValue maxDepth)]
    else []
  else []

/-- `t.isImport(path.node.callee)` (line 53). -/
def isImportCallee : Expr → Bool
  | .importOp => true
  | _ => false

/-- The require-callee test of lines 62-66:
`t.isIdentifier(callee, { name: 'require' })` or
`t.isMemberExpression(callee) && t.isIdentifier(callee.object, { name: 'require' })`. -/
def isRequireCallee : Expr → Bool
  | .ident "require" => true
  | .member (.ident "require") _ => true
  | _ => false

/-- `ImportDeclaration` visitor (lines 44-49). -/
def importDeclarationVisitor (maxDepth : Nat) (node : ImportDeclaration) :
    List (ReportedNode × String) :=
  checkRelativePath node.source (.importDecl node) maxDepth

/-- `CallExpression` visitor (lines 51-74): the dynamic-import branch, the
require branch, each guarded by
`firstArg && t.isStringLiteral(firstArg)` on `arguments[0]`. -/
def callExpressionVisitor (maxDepth : Nat) (node : CallExpression) :
    List (ReportedNode × String) :=
  if isImportCallee node.callee then
    match node.arguments with
    | Expr.strLit v :: _ => checkRelativePath v (.callExpr node) maxDepth
    | _ => []
  else if isRequireCallee node.callee then
    match node.arguments with
    | Expr.strLit v :: _ => checkRelativePath v (.callExpr node) maxDepth
    | _ => []
  else []

/-- `ExportNamedDeclaration` visitor (lines 76-83): guarded by
`if (path.node.source)`. -/
def exportNamedDeclarationVisitor (maxDepth : Nat)
    (node : ExportNamedDeclaration) : List (ReportedNode × String) :=
  match node.source with
  | some v => checkRelativePath v (.exportNamed node) maxDepth
  | none => []

/-- `ExportAllDeclaration` visitor (lines 85-90). -/
def exportAllDeclarationVisitor (maxDepth : Nat)
    (node : ExportAllDeclaration) : List (ReportedNode × String) :=
  checkRelativePath node.source (.exportAll node) maxDepth

/-- `PluginOptions` (src/unnamed/part_000 lines 513-515): the only field is
the `report` callback; in the purified model its result is `Unit`. -/
structure PluginOptions where
  report : ReportedNode → String → Unit

/-- The record returned by the default-exported plugin function:
its `name` and the four visitors (lines 40-92). -/
structure BabelPlugin where
  name : String
  importDeclaration : ImportDeclaration → List (ReportedNode × String)
  callExpression : CallExpression → List (ReportedNode × String)
  exportNamedDeclaration : ExportNamedDeclaration → List (ReportedNode × String)
  exportAllDeclaration : ExportAllDeclaration → List (ReportedNode × String)

/-- `const maxDepth = 2` (line 36), the constant bound inside the plugin
function; it is not read from `options`. -/
def pluginMaxDepth : Nat := 2

/-- The default-exported plugin function (lines 34-93).  `options` supplies
only the `report` callback (purified away); the depth limit is the local
constant `pluginMaxDepth`. -/
def noDeepRelativeImports (_options : PluginOptions) : BabelPlugin :=
  { name := "no-deep-relative-imports"
    importDeclaration := importDeclarationVisitor pluginMaxDepth
    callExpression := callExpressionVisitor pluginMaxDepth
    exportNamedDeclaration := exportNamedDeclarationVisitor pluginMaxDepth
    exportAllDeclaration := exportAllDeclarationVisitor pluginMaxDepth }

/-- The configuration surface as the spec describes it: an options record
that would carry the maximum permitted depth.  The actual `PluginOptions`
of the source (src/unnamed/part_000 lines 513-515) has no such field — its
only member is the `report` callback. -/
structure ClaimedOptions where
  maxDepth : Nat

/-- `true` iff the list starts with the three characters of the pattern
`../`; used to count, position by position, the occurrences of `../`. -/
def hasPrefixDDS : List Char → Bool
  | '.' :: '.' :: '/' :: _ => true
  | _ => false

/-- The number of positions of `s` at which the substring `../` occurs
(each suffix of `s` is one position). -/
def occurrenceCount (s : String) : Nat :=
  s.data.tails.countP hasPrefixDDS

lemma hasPrefixDDS_false_of_ne (head : Char) (rest : List Char)
    (h : ∀ (r : List Char), head = '.' → rest = '.' :: '/' :: r → False) :
    hasPrefixDDS (head :: rest) = false := by
  unfold hasPrefixDDS
  split
  · rename_i heq
    injection heq with h1 h2
    exact (h _ h1 h2).elim
  · rfl

lemma countDotDotSlash_cons_of_ne (head : Char) (rest : List Char)
    (h : ∀ (r : List Char), head = '.' → rest = '.' :: '/' :: r → False) :
    countDotDotSlash (head :: rest) = countDotDotSlash rest := by
  conv_lhs => rw [countDotDotSlash.eq_def]
  split
  · rename_i heq
    injection heq with h1 h2
    exact (h _ h1 h2).elim
  · rename_i heq
    injection heq with h1 h2
    rw [h2]
  · rename_i heq
    exact absurd heq (by simp)

/-- The greedy left-to-right scan of the source's global regex equals the
count of all positions at which `../` occurs: occurrences of `../` cannot
overlap, so no position is skipped. -/
lemma countDotDotSlash_eq_tails_countP (l : List Char) :
    countDotDotSlash l = l.tails.countP hasPrefixDDS := by
  induction l using countDotDotSlash.induct with
  | case1 rest ih =>
      simp [countDotDotSlash, List.tails_cons, List.countP_cons, hasPrefixDDS, ih]
  | case2 head rest h ih =>
      rw [countDotDotSlash_cons_of_ne head rest h, List.tails_cons,
        List.countP_cons, hasPrefixDDS_false_of_ne head rest h, ih]
      simp
  | case3 => rfl

/-- The reported messages do not depend on the node handle. -/
lemma checkRelativePath_map_snd (s : String) (n n2 : ReportedNode)
    (limit : Nat) :
    (checkRelativePath s n limit).map Prod.snd
      = (checkRelativePath s n2 limit).map Prod.snd := by
  unfold checkRelativePath
  split
  · split <;> rfl
  · rfl

/-- C1: for every specifier beginning with `.`, `checkRelativePath` reports
a violation iff the number of non-overlapping occurrences of `../` is
strictly greater than the depth limit; in particular a specifier with
exactly `limit` occurrences produces no violation and one with `limit + 1`
occurrences produces a violation. -/
theorem checkRelativePath_violation_iff_depth_gt_limit (s : String)
    (n : ReportedNode) (limit : Nat) (h : startsWithDot s = true) :
    (checkRelativePath s n limit ≠ [] ↔ getDepth s > limit)
      ∧ (getDepth s = limit → checkRelativePath s n limit = [])
      ∧ (getDepth s = limit + 1 → checkRelativePath s n limit ≠ []) := by
  refine ⟨?_, ?_, ?_⟩
  · simp only [checkRelativePath, h, if_true]
    split
    · rename_i hgt
      simpa using hgt
    · rename_i hle
      simp only [ne_eq, not_true_eq_false, false_iff, not_lt]
      omega
  · intro he
    simp [checkRelativePath, h, he]
  · intro he
    simp [checkRelativePath, h, he]

/-- Witness for C1 at specifier `"../../../utils"` and limit `2`. -/
theorem checkRelativePath_violation_iff_depth_gt_limit_witness :
    startsWithDot "../../../utils" = true
      ∧ checkRelativePath "../../../utils"
          (.importDecl ⟨"../../../utils"⟩) 2 ≠ [] :=
  ⟨by decide,
    (checkRelativePath_violation_iff_depth_gt_limit "../../../utils"
      (.importDecl ⟨"../../../utils"⟩) 2 (by decide)).1.mpr (by decide)⟩

/-- C2 counterexample: at specifier `"../../../utils"` and limit 2 the
reported message is not the English sentence the claim states — the
source's template (line 27) is written in Chinese. -/
theorem violation_message_is_not_english :
    checkRelativePath "../../../utils" (.importDecl ⟨"../../../utils"⟩) 2
      ≠ [(.importDecl ⟨"../../../utils"⟩,
          "Import/export path \"../../../utils\" must not exceed the maximum depth (2 levels)")] := by
  decide

/-- C2 amended: when a violation is reported, the message is exactly the
source's Chinese template with the original specifier and the limit
substituted: `导入/导出路径 "<specifier>" 不能超过最大层级（<limit>：层）`. -/
theorem checkRelativePath_reports_chinese_message (s : String)
    (n : ReportedNode) (limit : Nat) (hd : startsWithDot s = true)
    (hgt : getDepth s > limit) :
    checkRelativePath s n limit
      = [(n, "导入/导出路径 \"" ++ s ++ "\" 不能超过最大层级（"
            ++ Nat.repr limit ++ "：层）")] := by
  simp [checkRelativePath, hd, hgt, violationMessage]

/-- Witness for the amended C2 at specifier `"../../../utils"`, limit 2. -/
theorem checkRelativePath_reports_chinese_message_witness :
    checkRelativePath "../../../utils" (.importDecl ⟨"../../../utils"⟩) 2
      = [(.importDecl ⟨"../../../utils"⟩,
          "导入/导出路径 \"../../../utils\" 不能超过最大层级（2：层）")] := by
  rw [checkRelativePath_reports_chinese_message "../../../utils"
    (.importDecl ⟨"../../../utils"⟩) 2 (by decide) (by decide)]
  decide

/-- C3 counterexample: the depth limit is not supplied through the options:
no matter which maximum depth the claimed configuration carries, the plugin
built from the source's `PluginOptions` keeps using its own constant; with
a claimed maximum depth of 3 the visitor behaviours differ at
`"../../../utils"`. -/
theorem depth_limit_not_configurable :
    ¬ (∀ o : ClaimedOptions,
        (noDeepRelativeImports { report := fun _ _ => () }).importDeclaration
          = importDeclarationVisitor o.maxDepth) := by
  intro h
  have h3 := congrFun (h ⟨3⟩) ⟨"../../../utils"⟩
  exact absurd h3 (by decide)

/-- C3 amended: the depth limit is the constant 2 hard-coded in the plugin
function; `options` supplies only the `report` callback, and all four
visitors use that constant for every options value. -/
theorem noDeepRelativeImports_uses_constant_limit (o : PluginOptions) :
    (noDeepRelativeImports o).importDeclaration
        = importDeclarationVisitor pluginMaxDepth
      ∧ (noDeepRelativeImports o).callExpression
        = callExpressionVisitor pluginMaxDepth
      ∧ (noDeepRelativeImports o).exportNamedDeclaration
        = exportNamedDeclarationVisitor pluginMaxDepth
      ∧ (noDeepRelativeImports o).exportAllDeclaration
        = exportAllDeclarationVisitor pluginMaxDepth
      ∧ pluginMaxDepth = 2 :=
  ⟨rfl, rfl, rfl, rfl, rfl⟩

/-- C4 counterexample: `window.require("../../../../pkg")` with limit 2 is
not reported at all — the member-expression branch requires the base
object itself to be the identifier `require`, and here it is `window`. -/
theorem window_require_not_reported :
    callExpressionVisitor 2
        ⟨.member (.ident "window") (.ident "require"),
          [.strLit "../../../../pkg"]⟩ = []
      ∧ (callExpressionVisitor 2
          ⟨.member (.ident "window") (.ident "require"),
            [.strLit "../../../../pkg"]⟩).length ≠ 1 := by
  decide

/-- C4 amended: a call whose callee is the bare identifier `require`, or a
member access whose base object is the identifier `require` (such as
`require.resolve(...)`), with a string-literal first argument whose `../`
count exceeds the limit, is reported exactly once with the call node;
`window.require(...)` does not match, since its base object is `window`. -/
theorem require_call_reported_once (p : Expr) (s : String)
    (rest : List Expr) (limit : Nat) (hd : startsWithDot s = true)
    (hgt : getDepth s > limit) :
    callExpressionVisitor limit ⟨.ident "require", .strLit s :: rest⟩
        = [(.callExpr ⟨.ident "require", .strLit s :: rest⟩,
            violationMessage s limit)]
      ∧ callExpressionVisitor limit
          ⟨.member (.ident "require") p, .strLit s :: rest⟩
        = [(.callExpr ⟨.member (.ident "require") p, .strLit s :: rest⟩,
            violationMessage s limit)] := by
  constructor <;>
    simp [callExpressionVisitor, isImportCallee, isRequireCallee,
      checkRelativePath, hd, hgt]

/-- Witness for the amended C4 at `require("../../../../pkg")` and
`require.resolve("../../../../pkg")`, limit 2. -/
theorem require_call_reported_once_witness :
    callExpressionVisitor 2 ⟨.ident "require", [.strLit "../../../../pkg"]⟩
        = [(.callExpr ⟨.ident "require", [.strLit "../../../../pkg"]⟩,
            violationMessage "../../../../pkg" 2)]
      ∧ callExpressionVisitor 2
          ⟨.member (.ident "require") (.ident "resolve"),
            [.strLit "../../../../pkg"]⟩
        = [(.callExpr ⟨.member (.ident "require") (.ident "resolve"),
              [.strLit "../../../../pkg"]⟩,
            violationMessage "../../../../pkg" 2)] :=
  require_call_reported_once (.ident "resolve") "../../../../pkg" [] 2
    (by decide) (by decide)

/-- C5: the depth of a specifier is the count of non-overlapping
occurrences of the literal substring `../` anywhere in the string — equal
to the count of every position at which `../` occurs, since occurrences
cannot overlap — and `"./a/../../b"` has depth 2 (no path normalization). -/
theorem getDepth_counts_every_occurrence :
    (∀ s : String, getDepth s = occurrenceCount s)
      ∧ getDepth "./a/../../b" = 2 :=
  ⟨fun s => countDotDotSlash_eq_tails_countP s.data, by decide⟩

/-- C6: a specifier that does not begin with `.` (the empty string
included) is never reported, for every limit. -/
theorem nonrelative_specifier_no_violation (s : String) (n : ReportedNode)
    (limit : Nat) (h : startsWithDot s = false) :
    checkRelativePath s n limit = [] := by
  simp [checkRelativePath, h]

/-- Witness for C6 at the empty specifier and limit `0`. -/
theorem nonrelative_specifier_no_violation_witness :
    startsWithDot "" = false
      ∧ checkRelativePath "" (.importDecl ⟨""⟩) 0 = [] :=
  ⟨by decide,
    nonrelative_specifier_no_violation "" (.importDecl ⟨""⟩) 0 (by decide)⟩

/-- C7: a dynamic-import call whose first argument is not a string literal
(computed, a variable, or absent) is never classified and never reported,
for every limit. -/
theorem dynamic_import_nonliteral_ignored (args : List Expr) (limit : Nat)
    (h : ∀ (v : String) (rest : List Expr), args ≠ Expr.strLit v :: rest) :
    callExpressionVisitor limit ⟨.importOp, args⟩ = [] := by
  cases args with
  | nil => rfl
  | cons a rest =>
    cases a with
    | strLit v => exact (h v rest rfl).elim
    | ident name => rfl
    | member o pr => rfl
    | importOp => rfl
    | otherExpr => rfl

/-- Witness for C7: a dynamic import of a variable, at limit 2. -/
theorem dynamic_import_nonliteral_ignored_witness :
    callExpressionVisitor 2 ⟨.importOp, [.ident "x"]⟩ = [] :=
  dynamic_import_nonliteral_ignored [.ident "x"] 2
    (fun v rest hh => by
      injection hh with h1 h2
      exact Expr.noConfusion h1)

/-- C8: a named export with no source performs no check, while an
export-all declaration always has its source classified, and a wildcard
re-export of a relative source whose `../` count exceeds the limit
produces a violation. -/
theorem reexport_visitors_behaviour (limit : Nat)
    (n : ExportNamedDeclaration) (a : ExportAllDeclaration)
    (hn : n.source = none) (hd : startsWithDot a.source = true)
    (hgt : getDepth a.source > limit) :
    exportNamedDeclarationVisitor limit n = []
      ∧ exportAllDeclarationVisitor limit a
        = checkRelativePath a.source (.exportAll a) limit
      ∧ exportAllDeclarationVisitor limit a ≠ [] := by
  refine ⟨?_, rfl, ?_⟩
  · simp [exportNamedDeclarationVisitor, hn]
  · simp [exportAllDeclarationVisitor, checkRelativePath, hd, hgt]

/-- Witness for C8: `export * from "../../../deep"` at limit 2, and a
named export with no source clause. -/
theorem reexport_visitors_behaviour_witness :
    exportNamedDeclarationVisitor 2 ⟨none⟩ = []
      ∧ exportAllDeclarationVisitor 2 ⟨"../../../deep"⟩
        = checkRelativePath "../../../deep" (.exportAll ⟨"../../../deep"⟩) 2
      ∧ exportAllDeclarationVisitor 2 ⟨"../../../deep"⟩ ≠ [] :=
  reexport_visitors_behaviour 2 ⟨none⟩ ⟨"../../../deep"⟩ rfl
    (by decide) (by decide)

/-- C9: one specifier processed through the four reference shapes (static
import, dynamic import call, require call, re-export with source — both
named and wildcard) under the same limit yields the same reported-message
list, hence the same violation/no-violation outcome. -/
theorem four_shapes_agree (s : String) (limit : Nat) :
    ((importDeclarationVisitor limit ⟨s⟩).map Prod.snd
        = (callExpressionVisitor limit ⟨.importOp, [.strLit s]⟩).map Prod.snd)
      ∧ ((callExpressionVisitor limit ⟨.importOp, [.strLit s]⟩).map Prod.snd
        = (callExpressionVisitor limit
            ⟨.ident "require", [.strLit s]⟩).map Prod.snd)
      ∧ ((callExpressionVisitor limit
            ⟨.ident "require", [.strLit s]⟩).map Prod.snd
        = (exportNamedDeclarationVisitor limit ⟨some s⟩).map Prod.snd)
      ∧ ((exportNamedDeclarationVisitor limit ⟨some s⟩).map Prod.snd
        = (exportAllDeclarationVisitor limit ⟨s⟩).map Prod.snd)
      ∧ (importDeclarationVisitor limit ⟨s⟩).length
        = (exportAllDeclarationVisitor limit ⟨s⟩).length := by
  refine ⟨checkRelativePath_map_snd s _ _ limit,
    checkRelativePath_map_snd s _ _ limit,
    checkRelativePath_map_snd s _ _ limit,
    checkRelativePath_map_snd s _ _ limit, ?_⟩
  have h := checkRelativePath_map_snd s (.importDecl ⟨s⟩)
    (.exportAll ⟨s⟩) limit
  simpa using congrArg List.length h

/-- C10: a final parent-directory segment not followed by a slash is not
counted: `".."` has depth 0, `"../.."` depth 1, `"../../.."` depth 2, and
with limit 2 the specifier `"../../.."` produces no violation. -/
theorem trailing_parent_segment_not_counted :
    getDepth ".." = 0 ∧ getDepth "../.." = 1 ∧ getDepth "../../.." = 2
      ∧ importDeclarationVisitor 2 ⟨"../../.."⟩ = [] := by
  decide
